import Mathlib

/-!
# Verification of the StandX maker bot decision engine

Shallow embedding of `core/state.py` and `core/maker.py` from the
standx-bot repository.  Python floats are modelled as rationals (`ℚ`),
timestamps as rationals, deque windows as lists of `(timestamp, value)`
pairs in append order (oldest first).  Venue calls are modelled by an
environment (`Env`) that fixes the outcome (`Call.ok` / `Call.exn`,
the latter standing for a raised exception) of each venue operation a
tick may perform.  Python's `float("inf")` (returned by
`get_volatility_bps` when the last price is 0) is modelled by the
two-constructor type `RVal`.

Two type errors in `_tick` are modelled faithfully:
* `state.get_orders_to_cancel` returns a dict
  `{'orders': ..., 'cex_triggered_sides': ...}` but `_tick`
  (maker.py lines 526-552) treats the result as a list: iterating the
  dict yields its two string keys, so the comprehension
  `{order.cl_ord_id: order for order in orders_to_cancel if order}`
  raises `AttributeError` on every tick reaching that step
  (the dict is non-empty, hence truthy, even when no cancel is due);
* `Config` (config.py) has no field `imbalance_guard_enabled`, so the
  access `self.config.imbalance_guard_enabled` in maker.py line 365
  raises `AttributeError` whenever `binance_symbol` is set.
Both are represented by the tick exit points `cancelStepTypeError` and
`configAttrError`; an uncaught exception leaves local state unchanged
(it is caught by the `run` loop of the maker).
-/

namespace StandX

/-- Order side, the `side` strings `"buy"` / `"sell"` of the source. -/
inductive Side
  | buy
  | sell
deriving DecidableEq, Repr

/-- `state.py` `OpenOrder` dataclass. -/
structure OpenOrder where
  cl_ord_id : String
  side : Side
  price : ℚ
  qty : ℚ
deriving DecidableEq, Repr

/-- `state.py` `State` dataclass (the fields the decision logic reads).
Windows are `(timestamp, value)` lists, oldest first, matching deque
append order. -/
structure State where
  last_dex_price : Option ℚ
  last_cex_price : Option ℚ
  last_dex_update_time : ℚ
  last_cex_update_time : ℚ
  dex_price_window : List (ℚ × ℚ)
  cex_price_window : List (ℚ × ℚ)
  cex_volume_window : List (ℚ × ℚ)
  position : ℚ
  entry_price : ℚ
  last_fill_time : ℚ
  buy_order : Option OpenOrder
  sell_order : Option OpenOrder
deriving DecidableEq, Repr

/-- `State.get_order` (the `open_orders` dict is modelled by the two
fields `buy_order` / `sell_order`; the dict always holds exactly the
keys `"buy"` and `"sell"`, in that insertion order). -/
def State.get_order (st : State) : Side → Option OpenOrder
  | Side.buy => st.buy_order
  | Side.sell => st.sell_order

/-- `State.set_order`. -/
def State.set_order (st : State) (side : Side) (o : Option OpenOrder) : State :=
  match side with
  | Side.buy => { st with buy_order := o }
  | Side.sell => { st with sell_order := o }

/-- `State.clear_all_orders`. -/
def State.clear_all_orders (st : State) : State :=
  { st with buy_order := none, sell_order := none }

/-- `State.update_position`. -/
def State.update_position (st : State) (qty entry : ℚ) : State :=
  { st with position := qty, entry_price := entry }

/-- Result of `float` values that may be `float("inf")`: `fin q` is an
ordinary value, `inf` is positive infinity. -/
inductive RVal
  | fin (q : ℚ)
  | inf
deriving DecidableEq, Repr

/-- Python comparison `v > x` where `v` may be `inf`. -/
def RVal.gtQ : RVal → ℚ → Bool
  | RVal.fin q, x => decide (x < q)
  | RVal.inf, _ => true

/-- `max` of a non-empty Python list (0 for the empty list, which the
source never reaches). -/
def listMax : List ℚ → ℚ
  | [] => 0
  | x :: xs => xs.foldl max x

/-- `min` of a non-empty Python list (0 for the empty list). -/
def listMin : List ℚ → ℚ
  | [] => 0
  | x :: xs => xs.foldl min x

/-- `sum` of a Python list. -/
def listSum : List ℚ → ℚ
  | [] => 0
  | x :: xs => x + listSum xs

/-- The `source` argument of `State._get_window`. -/
inductive Source
  | cex
  | dex
  | auto
deriving DecidableEq, Repr

/-- `State._get_window`: `"cex"`/`"dex"` select that window, anything
else prefers the CEX window when it is non-empty. -/
def State.get_window (st : State) : Source → List (ℚ × ℚ)
  | Source.cex => st.cex_price_window
  | Source.dex => st.dex_price_window
  | Source.auto => if st.cex_price_window ≠ [] then st.cex_price_window else st.dex_price_window

/-- The price list selected inside `State.get_volatility_bps`:
`window_sec` falsy (`None` here `none`, or `0`) keeps every sample,
otherwise samples with `t > now - window_sec` are kept. -/
def pricesInWindow (window : List (ℚ × ℚ)) (window_sec : Option ℚ) (now : ℚ) : List ℚ :=
  match window_sec with
  | none => window.map (fun s => s.2)
  | some w =>
    if w = 0 then window.map (fun s => s.2)
    else (window.filter (fun s => now - w < s.1)).map (fun s => s.2)

/-- `State.get_volatility_bps`: `(max - min) / last * 10^4`; `0` with
fewer than 2 samples; `inf` when the last sample is 0. -/
def State.get_volatility_bps (st : State) (window_sec : Option ℚ) (src : Source) (now : ℚ) :
    RVal :=
  let window := st.get_window src
  if window = [] then RVal.fin 0
  else
    let prices := pricesInWindow window window_sec now
    if prices.length < 2 then RVal.fin 0
    else if prices.getLastD 0 = 0 then RVal.inf
    else RVal.fin ((listMax prices - listMin prices) / prices.getLastD 0 * 10000)

/-- `State.get_cex_amplitude`: `(max - min) / ((max + min)/2) * 10^4`
over the CEX window, 0 on any degenerate case. -/
def State.get_cex_amplitude (st : State) (window_sec : ℚ) (now : ℚ) : ℚ :=
  if st.cex_price_window = [] then 0
  else
    let prices := (st.cex_price_window.filter (fun s => now - window_sec < s.1)).map
      (fun s => s.2)
    if prices = [] then 0
    else
      let max_p := listMax prices
      let min_p := listMin prices
      if min_p = 0 then 0
      else
        let mid_p := (max_p + min_p) / 2
        if mid_p = 0 then 0
        else (max_p - min_p) / mid_p * 10000

/-- `State.get_cex_volume_ratio`: `(ratio, current, average, count)`. -/
def State.get_cex_volume_ratio (st : State) (window_sec : ℚ) (min_samples : ℕ) (now : ℚ) :
    ℚ × ℚ × ℚ × ℕ :=
  if st.cex_volume_window = [] then (0, 0, 0, 0)
  else
    let samples := (st.cex_volume_window.filter (fun s => now - window_sec < s.1)).map
      (fun s => s.2)
    if samples.length < min_samples + 1 then (0, 0, 0, samples.length)
    else
      let current := samples.getLastD 0
      let baseline := samples.dropLast
      let avg := if baseline ≠ [] then listSum baseline / baseline.length else 0
      if avg ≤ 0 then (0, current, avg, baseline.length)
      else (current / avg, current, avg, baseline.length)

/-- The loop of `State._get_consecutive_direction` (maker walks a
newest-first price list): `dir` and `cnt` are the `direction` and
`target_count` accumulators; flat diffs are skipped, an opposite diff
breaks (returning 0), and `direction` is returned as soon as
`target_count >= threshold_ticks`. -/
def walkDir (thr : ℕ) : List ℚ → ℤ → ℕ → ℤ
  | p1 :: p2 :: rest, dir, cnt =>
    let diff := p1 - p2
    if diff = 0 then walkDir thr (p2 :: rest) dir cnt
    else
      let cd : ℤ := if 0 < diff then 1 else -1
      if dir = 0 then
        (if thr ≤ 1 then cd else walkDir thr (p2 :: rest) cd 1)
      else if cd = dir then
        (if thr ≤ cnt + 1 then dir else walkDir thr (p2 :: rest) dir (cnt + 1))
      else 0
  | _, _, _ => 0

/-- The newest-first in-window price list used by
`State._get_consecutive_direction` (`reversed(window)` filtered by
`t > now - window_sec`). -/
def recentPrices (window : List (ℚ × ℚ)) (window_sec : ℚ) (now : ℚ) : List ℚ :=
  (window.reverse.filter (fun s => now - window_sec < s.1)).map (fun s => s.2)

/-- `State._get_consecutive_direction`. -/
def consecutiveDirection (window : List (ℚ × ℚ)) (window_sec : ℚ) (threshold_ticks : ℕ)
    (now : ℚ) : ℤ :=
  if window.length < threshold_ticks + 1 then 0
  else
    let recent := recentPrices window window_sec now
    if recent.length < threshold_ticks + 1 then 0
    else walkDir threshold_ticks recent 0 0

/-- `State.get_trend_direction`. -/
def State.get_trend_direction (st : State) (window_sec : ℚ) (threshold_ticks : ℕ)
    (src : Source) (now : ℚ) : ℤ :=
  consecutiveDirection (st.get_window src) window_sec threshold_ticks now

/-- The dict returned by `State.get_orders_to_cancel`:
keys `'orders'` and `'cex_triggered_sides'`. -/
structure CancelRes where
  orders : List OpenOrder
  cex_triggered_sides : List Side
deriving DecidableEq, Repr

/-- Per-order decision of `State.get_orders_to_cancel`:
`(cancel, cex_triggered)`.  `d` is `last_dex_price` (the source divides
by it unguarded; all claims about this function assume `0 < d`). -/
def orderCancelDecision (d : ℚ) (cex : Option ℚ) (bounds : ℚ × ℚ) (side : Side)
    (o : OpenOrder) : Bool × Bool :=
  let dex_distance_bps := |o.price - d| / d * 10000
  let cex_in_danger :=
    match cex with
    | none => false
    | some c =>
      -- Python `self.last_cex_price and self.last_cex_price > 0`
      if c ≠ 0 ∧ 0 < c then
        match side with
        | Side.buy => decide ((c - o.price) / c * 10000 < 2)
        | Side.sell => decide ((o.price - c) / c * 10000 < 2)
      else false
  if dex_distance_bps < bounds.1 then (true, false)
  else if cex_in_danger then (true, true)
  else if bounds.2 < dex_distance_bps then (true, false)
  else (false, false)

/-- Fold one side of the `open_orders` dict into the accumulating
`CancelRes` (iteration order is `"buy"` then `"sell"`). -/
def cancelStep (d : ℚ) (cex : Option ℚ) (bounds : ℚ × ℚ) (side : Side)
    (o? : Option OpenOrder) (acc : CancelRes) : CancelRes :=
  match o? with
  | none => acc
  | some o =>
    let dec := orderCancelDecision d cex bounds side o
    { orders := acc.orders ++ (if dec.1 then [o] else []),
      cex_triggered_sides := acc.cex_triggered_sides ++ (if dec.2 then [side] else []) }

/-- `State.get_orders_to_cancel`. -/
def State.get_orders_to_cancel (st : State) (buy_bounds sell_bounds : ℚ × ℚ) : CancelRes :=
  match st.last_dex_price with
  | none => ⟨[], []⟩
  | some d =>
    cancelStep d st.last_cex_price sell_bounds Side.sell st.sell_order
      (cancelStep d st.last_cex_price buy_bounds Side.buy st.buy_order ⟨[], []⟩)

/-! ## Maker (`core/maker.py`) -/

/-- `config.py` `Config` dataclass: exactly the fields declared there
that the decision logic reads.  Note: `Config` declares **no**
`imbalance_guard_enabled` and **no** `min_profit_usd` field; maker.py
reads the former directly (an `AttributeError` when reached) and the
latter through `getattr(..., 'min_profit_usd', 0.0)` (hence constant
`0`). -/
structure Config where
  symbol : String
  binance_symbol : String -- `None`/unset modelled as ""
  order_size_btc : ℚ
  max_position_btc : ℚ
  max_skew_bps : ℚ
  rebalance_distance_bps : ℚ
  order_distance_tight_min_bps : ℚ
  order_distance_tight_max_bps : ℚ
  order_distance_far_min_bps : ℚ
  order_distance_far_max_bps : ℚ
  cancel_distance_min_bps : ℚ
  cancel_distance_max_bps : ℚ
  volatility_window_sec : ℚ
  volatility_threshold_bps : ℚ
  stop_loss_usd : ℚ
  stop_loss_cooldown_sec : ℚ
  recovery_window_sec : ℚ
  recovery_volatility_bps : ℚ
  recovery_check_interval_sec : ℚ
  dex_staleness_sec : ℚ
  binance_staleness_sec : ℚ
  spread_threshold_bps : ℚ
  spread_warn_bps : ℚ
  spread_recovery_bps : ℚ
  amplitude_window_sec : ℚ
  amplitude_ratio_threshold : ℚ
  amplitude_warn_ratio_threshold : ℚ
  velocity_check_window_sec : ℚ
  velocity_tick_threshold : ℕ
  velocity_warn_tick_threshold : ℕ
  volume_window_sec : ℚ
  volume_min_samples : ℕ
  volume_warn_ratio : ℚ
  volume_guard_ratio : ℚ
  risk_guard_cooldown_sec : ℚ
  risk_recovery_stable_sec : ℚ
  caution_other_side_enabled : Bool
  taker_fee_rate : ℚ
  min_profit_bps : ℚ
  fill_cooldown_sec : ℚ

/-- Maker-local mutable flags (`Maker.__init__`). -/
structure Flags where
  stop_loss_active : Bool
  next_recovery_check : ℚ
  risk_guard_active : Bool
  risk_guard_cooldown_until : ℚ
  risk_guard_stable_start : Option ℚ
  pending_close : Bool
deriving DecidableEq, Repr

/-- Outcome of a venue call: a returned value or a raised exception. -/
inductive Call (α : Type)
  | ok (a : α)
  | exn
deriving DecidableEq, Repr

/-- A position record returned by `client.query_positions`. -/
structure PosInfo where
  qty : ℚ
  entry_price : ℚ
  upnl : ℚ
deriving DecidableEq, Repr

/-- A `client.new_order` response dict: its `code` entry (if any) and
whether an `"id"` key is present. -/
structure Resp where
  code : Option ℤ
  has_id : Bool
deriving DecidableEq, Repr

/-- The venue as seen by one tick: the outcome of each call the tick
may make.  (Each kind of call is made at most once per id per tick on
live code paths.) -/
structure Env where
  positions : Call (List PosInfo)
  open_orders : Call (List OpenOrder)
  cancel_result : String → Call Unit
  batch_cancel_result : Call Unit
  new_order_result : Call Resp

/-- An order submission handed to `client.new_order`:
`qty` and `price` are the values the source formats into strings
(market orders pass price `"0"`), `is_market` the `order_type`. -/
structure Placement where
  side : Side
  qty : ℚ
  price : ℚ
  is_market : Bool
  reduce_only : Bool
deriving DecidableEq, Repr

/-- `Maker._lerp`. -/
def lerp (min_val max_val r : ℚ) : ℚ := min_val + (max_val - min_val) * r

/-- `Maker._get_dynamic_distances`: `(tight, far, cancel)` with
`cancel = min(cancel, max(0.1, tight - 0.1))`. -/
def dynamicDistances (cfg : Config) (vol_r : ℚ) : ℚ × ℚ × ℚ :=
  let tight_bps := lerp cfg.order_distance_tight_min_bps cfg.order_distance_tight_max_bps vol_r
  let far_bps := lerp cfg.order_distance_far_min_bps cfg.order_distance_far_max_bps vol_r
  let cancel_bps := lerp cfg.cancel_distance_min_bps cfg.cancel_distance_max_bps vol_r
  (tight_bps, far_bps, min cancel_bps (max (1/10) (tight_bps - 1/10)))

/-- `Maker._get_skew_bps`. -/
def getSkewBps (cfg : Config) (st : State) : ℚ :=
  if cfg.max_skew_bps ≤ 0 ∨ cfg.max_position_btc ≤ 0 then 0
  else max (-1) (min 1 (st.position / cfg.max_position_btc)) * cfg.max_skew_bps

/-- The `trend_source` selected at the top of `Maker._tick`. -/
def trendSource (cfg : Config) : Source :=
  if cfg.binance_symbol ≠ "" then Source.cex else Source.dex

/-- The `vol_bps` of `Maker._get_volatility_ratio`. -/
def tickVol (cfg : Config) (st : State) (now : ℚ) : RVal :=
  st.get_volatility_bps (some cfg.volatility_window_sec) Source.auto now

/-- The `vol_ratio` of `Maker._get_volatility_ratio`
(`inf / threshold` clamps to 1). -/
def tickVolRatio (cfg : Config) (st : State) (now : ℚ) : ℚ :=
  if cfg.volatility_threshold_bps ≤ 0 then 0
  else
    match tickVol cfg st now with
    | RVal.fin q => max 0 (min 1 (q / cfg.volatility_threshold_bps))
    | RVal.inf => 1

/-- The `spread_bps` computed in `Maker._tick` (lines 252-257);
`None` unless `binance_symbol` is set, both prices are truthy and the
DEX price is positive. -/
def spreadBpsAt (cfg : Config) (st : State) : Option ℚ :=
  match st.last_cex_price, st.last_dex_price with
  | some c, some d =>
    if cfg.binance_symbol ≠ "" ∧ c ≠ 0 ∧ d ≠ 0 then
      (if 0 < d then some (|c - d| / d * 10000) else none)
    else none
  | _, _ => none

/-- The `amp_bps` computed in `Maker._tick` (lines 259-261). -/
def ampBpsAt (cfg : Config) (st : State) (now : ℚ) : ℚ :=
  if cfg.binance_symbol ≠ "" then st.get_cex_amplitude cfg.amplitude_window_sec now else 0

/-- The volume statistics computed in `Maker._tick` (lines 263-276). -/
def volumeStatsAt (cfg : Config) (st : State) (now : ℚ) : ℚ × ℚ × ℚ × ℕ :=
  if cfg.binance_symbol ≠ "" then
    st.get_cex_volume_ratio cfg.volume_window_sec cfg.volume_min_samples now
  else (0, 0, 0, 0)

/-- The `guard_trend_dir` of `Maker._tick`. -/
def guardTrendDirAt (cfg : Config) (st : State) (now : ℚ) : ℤ :=
  st.get_trend_direction cfg.velocity_check_window_sec cfg.velocity_tick_threshold
    (trendSource cfg) now

/-- The `warn_trend_dir` of `Maker._tick`. -/
def warnTrendDirAt (cfg : Config) (st : State) (now : ℚ) : ℤ :=
  st.get_trend_direction cfg.velocity_check_window_sec cfg.velocity_warn_tick_threshold
    (trendSource cfg) now

/-- The `stable` flag of the risk-guard recovery block
(`Maker._tick` lines 300-311). -/
def riskGuardStable (cfg : Config) (st : State) (now : ℚ) : Bool :=
  let tight_bps := (dynamicDistances cfg (tickVolRatio cfg st now)).1
  let amp_warn_bps := tight_bps * cfg.amplitude_warn_ratio_threshold
  let vstats := volumeStatsAt cfg st now
  !(match spreadBpsAt cfg st with
    | some s => decide (cfg.spread_recovery_bps < s)
    | none => false)
  && !((tickVol cfg st now).gtQ cfg.recovery_volatility_bps)
  && decide (warnTrendDirAt cfg st now = 0)
  && !decide (amp_warn_bps < ampBpsAt cfg st now)
  && !(decide (cfg.volume_warn_ratio < vstats.1)
        && decide (cfg.volume_min_samples ≤ vstats.2.2.2))

/-- Spread guard condition (`Maker._tick` line 333). -/
def spreadGuardCond (cfg : Config) (st : State) : Bool :=
  match spreadBpsAt cfg st with
  | some s => decide (cfg.spread_threshold_bps < s)
  | none => false

/-- Amplitude guard condition (`Maker._tick` lines 339-340). -/
def ampGuardCond (cfg : Config) (st : State) (now : ℚ) : Bool :=
  decide (cfg.binance_symbol ≠ "")
  && decide ((dynamicDistances cfg (tickVolRatio cfg st now)).1 * cfg.amplitude_ratio_threshold
      < ampBpsAt cfg st now)

/-- Volume guard condition (`Maker._tick` lines 352-355). -/
def volumeGuardCond (cfg : Config) (st : State) (now : ℚ) : Bool :=
  let vstats := volumeStatsAt cfg st now
  decide (cfg.volume_guard_ratio < vstats.1)
    && decide (cfg.volume_min_samples ≤ vstats.2.2.2)

/-- DEX staleness condition (`Maker._tick` lines 231-233). -/
def dexStaleCond (cfg : Config) (st : State) (now : ℚ) : Bool :=
  decide (0 < cfg.dex_staleness_sec) && decide (0 < st.last_dex_update_time)
    && decide (cfg.dex_staleness_sec < now - st.last_dex_update_time)

/-- CEX staleness condition (`Maker._tick` lines 240-242). -/
def cexStaleCond (cfg : Config) (st : State) (now : ℚ) : Bool :=
  decide (cfg.binance_symbol ≠ "")
    && decide (cfg.binance_staleness_sec < now - st.last_cex_update_time)

/-- The `caution` flag of `Maker._tick` (lines 391-414; the imbalance
warn check at line 408 is gated on `binance_symbol`, which is empty on
every path that reaches it — see `tickGuards`). -/
def cautionCond (cfg : Config) (st : State) (now : ℚ) : Bool :=
  let vstats := volumeStatsAt cfg st now
  (decide (0 < cfg.volatility_threshold_bps)
      && (tickVol cfg st now).gtQ cfg.volatility_threshold_bps)
  || (match spreadBpsAt cfg st with
      | some s => decide (cfg.spread_warn_bps < s)
      | none => false)
  || decide ((dynamicDistances cfg (tickVolRatio cfg st now)).1
      * cfg.amplitude_warn_ratio_threshold < ampBpsAt cfg st now)
  || decide (warnTrendDirAt cfg st now ≠ 0)
  || (decide (cfg.volume_warn_ratio < vstats.1)
      && decide (cfg.volume_min_samples ≤ vstats.2.2.2))

/-- Result of `Maker._check_stop_loss`. -/
structure StopLossRes where
  triggered : Bool
  st : State
  flags : Flags
  cancels : List String
  placements : List Placement
deriving Repr

/-- The cancel loop of `Maker._check_stop_loss` (lines 897-900):
cancel each queried order in turn; a raised exception aborts the loop
(and skips `clear_all_orders`).  Returns the ids for which
`cancel_order` was invoked and whether the loop completed. -/
def attemptCancels (env : Env) : List OpenOrder → List String × Bool
  | [] => ([], true)
  | o :: rest =>
    match env.cancel_result o.cl_ord_id with
    | Call.ok _ =>
      let r := attemptCancels env rest
      (o.cl_ord_id :: r.1, r.2)
    | Call.exn => ([o.cl_ord_id], false)

/-- `Maker._check_stop_loss`.  Any exception from `query_positions`
is caught by the outer `except` (no trigger); exceptions while
cancelling or while placing the flatten order are caught by inner
`except` blocks and do **not** prevent entering recovery mode. -/
def checkStopLoss (cfg : Config) (env : Env) (st : State) (fl : Flags) (now : ℚ) :
    StopLossRes :=
  if ¬ (0 < cfg.stop_loss_usd) then ⟨false, st, fl, [], []⟩
  else
    match env.positions with
    | Call.exn => ⟨false, st, fl, [], []⟩
    | Call.ok [] => ⟨false, st, fl, [], []⟩
    | Call.ok (p :: _) =>
      if p.upnl < -cfg.stop_loss_usd then
        -- 1. cancel all orders (errors logged, swallowed)
        let cres :=
          match env.open_orders with
          | Call.exn => ([], false)
          | Call.ok os => attemptCancels env os
        let st1 := if cres.2 then st.clear_all_orders else st
        -- 2. close position (market, reduce-only); errors swallowed
        let qty := |p.qty|
        let placements :=
          if 0 < qty then
            [⟨(if 0 < p.qty then Side.sell else Side.buy), qty, 0, true, true⟩]
          else ([] : List Placement)
        let st2 :=
          if 0 < qty then
            match env.new_order_result with
            | Call.ok _ => st1.update_position 0 0
            | Call.exn => st1
          else st1
        -- 3. enter recovery mode (unconditional once triggered)
        ⟨true, st2,
          { fl with stop_loss_active := true, pending_close := false,
                    next_recovery_check := now + cfg.stop_loss_cooldown_sec },
          cres.1, placements⟩
      else ⟨false, st, fl, [], []⟩

/-- Result of `Maker._check_and_reduce_position`. -/
structure ReduceRes where
  reduced : Bool
  st : State
  placements : List Placement
deriving Repr

/-- `Maker._check_and_reduce_position`: aggressive profit take.
`min_profit_usd` is `getattr(self.config, 'min_profit_usd', 0.0)` and
`Config` declares no such field, so it is the constant `0`.  A failed
or rejected close leaves local state untouched and reports `False`
(the Python function falls off the end, returning `None`). -/
def checkAndReducePosition (cfg : Config) (env : Env) (st : State) : ReduceRes :=
  let min_profit_usd : ℚ := 0
  let current_pos := |st.position|
  if current_pos = 0 then ⟨false, st, []⟩
  else
    match env.positions with
    | Call.exn => ⟨false, st, []⟩
    | Call.ok [] => ⟨false, st, []⟩
    | Call.ok (p :: _) =>
      if ¬ (min_profit_usd < p.upnl) then ⟨false, st, []⟩
      else
        let reduce_qty := current_pos
        let reduce_side := if 0 < st.position then Side.sell else Side.buy
        let pl : Placement := ⟨reduce_side, reduce_qty, 0, true, true⟩
        match env.new_order_result with
        | Call.exn => ⟨false, st, [pl]⟩
        | Call.ok resp =>
          if resp.code = some 0 ∨ resp.has_id then
            ⟨true, (st.update_position 0 0).clear_all_orders, [pl]⟩
          else ⟨false, st, [pl]⟩

/-- `Maker._cancel_all_orders`: batch-cancel the tracked orders; on an
exception the tracked orders are kept. -/
def cancelAllOrders (env : Env) (st : State) : State × List String :=
  let ids :=
    (match st.buy_order with | some o => [o.cl_ord_id] | none => []) ++
    (match st.sell_order with | some o => [o.cl_ord_id] | none => [])
  if ids = [] then (st, [])
  else
    match env.batch_cancel_result with
    | Call.ok _ => (st.clear_all_orders, ids)
    | Call.exn => (st, ids)

/-- `Maker._activate_risk_guard`. -/
def activateRiskGuard (cfg : Config) (env : Env) (st : State) (fl : Flags) (now : ℚ) :
    (State × Flags) × List String :=
  let fl1 := { fl with risk_guard_active := true,
                       risk_guard_cooldown_until := now + cfg.risk_guard_cooldown_sec,
                       risk_guard_stable_start := none }
  let c := cancelAllOrders env st
  ((c.1, fl1), c.2)

/-- Where a tick returned (or raised). -/
inductive ExitPoint
  | waitingData
  | recoveryWait
  | recoveryVolatile
  | stopLoss
  | dexStale
  | cexStale
  | guardCooldown
  | guardStabilizing
  | guardUnstable
  | spreadGuard
  | ampGuard
  | velocityGuard
  | volumeGuard
  | configAttrError
  | reduced
  | cooldownSkip
  | positionPause
  | cancelStepTypeError
deriving DecidableEq, Repr

/-- Observable outcome of one `Maker._tick`. -/
structure TickRes where
  exitPoint : ExitPoint
  st : State
  flags : Flags
  cancels : List String
  batchCancels : List String
  placements : List Placement
deriving Repr

/-- A tick that returns quietly: no venue calls, no mutation beyond
the given state/flags. -/
def TickRes.quiet (e : ExitPoint) (st : State) (fl : Flags) : TickRes :=
  ⟨e, st, fl, [], [], []⟩

/-- `Maker._tick` from line 496 on (skew, tolerance bounds and
`get_orders_to_cancel`), reached only with `binance_symbol = ""`.
Lines 528-534 treat the returned dict as a list, so every execution of
this region raises `AttributeError` before any cancel or placement of
steps 3-5 can happen (`cancelStepTypeError`). -/
def tickCancelRegion (cfg : Config) (st : State) (fl : Flags) (now : ℚ)
    (carried : List Placement) : TickRes :=
  let tfc := dynamicDistances cfg (tickVolRatio cfg st now)
  let caution := cautionCond cfg st now
  let direction : ℤ :=
    if caution then
      (if warnTrendDirAt cfg st now = 0 then
        st.get_trend_direction cfg.velocity_check_window_sec 1 (trendSource cfg) now
      else warnTrendDirAt cfg st now)
    else 0
  let base_buy_bps := if caution ∧ direction < 0 then tfc.2.1 else tfc.1
  let base_sell_bps := if caution ∧ 0 ≤ direction then tfc.2.1 else tfc.1
  let skew_bps := getSkewBps cfg st
  let buy_target := max 0 (base_buy_bps + skew_bps)
  let sell_target := max 0 (base_sell_bps - skew_bps)
  let buy_cancel_bps := min tfc.2.2 (max (1/10) (base_buy_bps - 1/10))
  let sell_cancel_bps := min tfc.2.2 (max (1/10) (base_sell_bps - 1/10))
  let buy_tolerance_lower := max (1/10) (base_buy_bps - buy_cancel_bps)
  let sell_tolerance_lower := max (1/10) (base_sell_bps - sell_cancel_bps)
  let buy_tolerance_upper := max 1 (cfg.rebalance_distance_bps - base_buy_bps)
  let sell_tolerance_upper := max 1 (cfg.rebalance_distance_bps - base_sell_bps)
  let buy_bounds := (max 0 (buy_target - buy_tolerance_lower), buy_target + buy_tolerance_upper)
  let sell_bounds :=
    (max 0 (sell_target - sell_tolerance_lower), sell_target + sell_tolerance_upper)
  let _cr := st.get_orders_to_cancel buy_bounds sell_bounds
  -- lines 528-534: `orders_to_cancel` is a dict; `.append` / key
  -- iteration raises AttributeError on every path
  ⟨ExitPoint.cancelStepTypeError, st, fl, [], [], carried⟩

/-- `Maker._tick` steps 1-3 (lines 477-534): profit take, cooldown
skip, position-limit check, then the cancel region. -/
def tickPlanning (cfg : Config) (env : Env) (st : State) (fl : Flags) (now : ℚ) : TickRes :=
  let r := checkAndReducePosition cfg env st
  if r.reduced then ⟨ExitPoint.reduced, r.st, fl, [], [], r.placements⟩
  else if (now - st.last_fill_time < cfg.fill_cooldown_sec) ∧ st.position = 0 then
    ⟨ExitPoint.cooldownSkip, st, fl, [], [], r.placements⟩
  else if cfg.max_position_btc ≤ |st.position| ∧ st.position = 0 then
    ⟨ExitPoint.positionPause, st, fl, [], [], r.placements⟩
  else tickCancelRegion cfg st fl now r.placements

/-- `Maker._tick` guard triggers and the imbalance-guard step
(lines 332-388).  Line 365 reads `self.config.imbalance_guard_enabled`,
a field `Config` does not declare: with `binance_symbol` set this
raises `AttributeError` (`configAttrError`). -/
def tickGuards (cfg : Config) (env : Env) (st : State) (fl : Flags) (now : ℚ) : TickRes :=
  if spreadGuardCond cfg st then
    let g := activateRiskGuard cfg env st fl now
    ⟨ExitPoint.spreadGuard, g.1.1, g.1.2, [], g.2, []⟩
  else if ampGuardCond cfg st now then
    let g := activateRiskGuard cfg env st fl now
    ⟨ExitPoint.ampGuard, g.1.1, g.1.2, [], g.2, []⟩
  else if guardTrendDirAt cfg st now ≠ 0 then
    let g := activateRiskGuard cfg env st fl now
    ⟨ExitPoint.velocityGuard, g.1.1, g.1.2, [], g.2, []⟩
  else if volumeGuardCond cfg st now then
    let g := activateRiskGuard cfg env st fl now
    ⟨ExitPoint.volumeGuard, g.1.1, g.1.2, [], g.2, []⟩
  else if cfg.binance_symbol ≠ "" then
    TickRes.quiet ExitPoint.configAttrError st fl
  else tickPlanning cfg env st fl now

/-- `Maker._tick` risk-guard cooldown / recovery block
(lines 289-330). -/
def tickMain (cfg : Config) (env : Env) (st : State) (fl : Flags) (now : ℚ) : TickRes :=
  if fl.risk_guard_active then
    if now < fl.risk_guard_cooldown_until then
      TickRes.quiet ExitPoint.guardCooldown st fl
    else if riskGuardStable cfg st now then
      let start := fl.risk_guard_stable_start.getD now
      if now - start < cfg.risk_recovery_stable_sec then
        TickRes.quiet ExitPoint.guardStabilizing st
          { fl with risk_guard_stable_start := some start }
      else
        tickGuards cfg env st
          { fl with risk_guard_active := false, risk_guard_stable_start := none } now
    else
      TickRes.quiet ExitPoint.guardUnstable st { fl with risk_guard_stable_start := none }
  else tickGuards cfg env st fl now

/-- `Maker._tick` staleness guards (lines 230-246). -/
def tickFromStaleness (cfg : Config) (env : Env) (st : State) (fl : Flags) (now : ℚ) :
    TickRes :=
  if dexStaleCond cfg st now then
    let g := activateRiskGuard cfg env st fl now
    ⟨ExitPoint.dexStale, g.1.1, g.1.2, [], g.2, []⟩
  else if cexStaleCond cfg st now then
    let g := activateRiskGuard cfg env st fl now
    ⟨ExitPoint.cexStale, g.1.1, g.1.2, [], g.2, []⟩
  else tickMain cfg env st fl now

/-- `Maker._tick` step -2.5 (line 226): the stop-loss check. -/
def tickFromStopLoss (cfg : Config) (env : Env) (st : State) (fl : Flags) (now : ℚ) :
    TickRes :=
  let r := checkStopLoss cfg env st fl now
  if r.triggered then ⟨ExitPoint.stopLoss, r.st, r.flags, r.cancels, [], r.placements⟩
  else tickFromStaleness cfg env st fl now

/-- `Maker._tick`: one iteration of the decision loop. -/
def tick (cfg : Config) (env : Env) (st : State) (fl : Flags) (now : ℚ) : TickRes :=
  if st.last_dex_price = none then TickRes.quiet ExitPoint.waitingData st fl
  else if fl.stop_loss_active then
    if now < fl.next_recovery_check then TickRes.quiet ExitPoint.recoveryWait st fl
    else if (st.get_volatility_bps (some cfg.recovery_window_sec) Source.auto now).gtQ
        cfg.recovery_volatility_bps then
      TickRes.quiet ExitPoint.recoveryVolatile st
        { fl with next_recovery_check := now + cfg.recovery_check_interval_sec }
    else tickFromStopLoss cfg env st { fl with stop_loss_active := false } now
  else tickFromStopLoss cfg env st fl now

/-- `Maker._place_order` (lines 708-767): align price to tick size
(floor for buy, ceil for sell), submit, and record an `OpenOrder`
(at the *unaligned* price) only on a `code == 0` response.  `resp` is
the venue outcome, `cl_ord_id` the generated client order id. -/
def place_order (cfg : Config) (resp : Call Resp) (st : State) (side : Side) (price : ℚ)
    (qty : Option ℚ) (reduce_only : Bool) (cl_ord_id : String) : State × List Placement :=
  let tick_size : ℚ := if cfg.symbol.startsWith "BTC" then 1/100 else 1/10
  let aligned_price : ℚ :=
    if side = Side.buy then (⌊price / tick_size⌋ : ℤ) * tick_size
    else (⌈price / tick_size⌉ : ℤ) * tick_size
  let order_qty := qty.getD cfg.order_size_btc
  let pl : Placement := ⟨side, order_qty, aligned_price, false, reduce_only⟩
  match resp with
  | Call.exn => (st, [pl])
  | Call.ok r =>
    if r.code = some 0 then
      (st.set_order side (some ⟨cl_ord_id, side, price, order_qty⟩), [pl])
    else (st, [pl])

/-- The cancel attempt of `Maker._tick` lines 538-544 for one tracked
order (the same try/except pattern as the imbalance-guard cancel):
the tracked order is cleared only when `cancel_order` did not raise. -/
def cancelTrackedOrder (env : Env) (st : State) (o : OpenOrder) : State × List String :=
  match env.cancel_result o.cl_ord_id with
  | Call.ok _ => (st.set_order o.side none, [o.cl_ord_id])
  | Call.exn => (st, [o.cl_ord_id])

/-! ## Derived predicates used in theorem statements -/

/-- The stop-loss trigger condition of `Maker._check_stop_loss`:
`stop_loss_usd > 0`, the positions query succeeded with a non-empty
list, and its head reports `upnl < -stop_loss_usd`. -/
def stopLossTriggersB (cfg : Config) (env : Env) : Bool :=
  decide (0 < cfg.stop_loss_usd) &&
    (match env.positions with
     | Call.ok (p :: _) => decide (p.upnl < -cfg.stop_loss_usd)
     | _ => false)

/-- The tick returns inside the recovery block (`Maker._tick`
lines 192-212): recovery mode active and either still waiting or the
recovery-window volatility is above the recovery threshold. -/
def recoveryHoldB (cfg : Config) (st : State) (fl : Flags) (now : ℚ) : Bool :=
  fl.stop_loss_active &&
    (decide (now < fl.next_recovery_check)
      || (st.get_volatility_bps (some cfg.recovery_window_sec) Source.auto now).gtQ
          cfg.recovery_volatility_bps)

/-- The tick returns inside the risk-guard block (`Maker._tick`
lines 289-330): guard active and either cooling down, unstable, or
not yet stable for `risk_recovery_stable_sec`. -/
def guardHoldB (cfg : Config) (st : State) (fl : Flags) (now : ℚ) : Bool :=
  fl.risk_guard_active &&
    (decide (now < fl.risk_guard_cooldown_until)
      || !(riskGuardStable cfg st now)
      || decide (now - (fl.risk_guard_stable_start.getD now) < cfg.risk_recovery_stable_sec))

/-! ## Helper lemmas -/

lemma checkStopLoss_not_triggered (cfg : Config) (env : Env) (st : State) (fl : Flags)
    (now : ℚ) (h : stopLossTriggersB cfg env = false) :
    checkStopLoss cfg env st fl now = ⟨false, st, fl, [], []⟩ := by
  unfold stopLossTriggersB at h
  unfold checkStopLoss
  by_cases hsl : 0 < cfg.stop_loss_usd
  · simp only [hsl, not_true_eq_false, if_false]
    cases hpos : env.positions with
    | exn => rfl
    | ok l =>
      cases l with
      | nil => rfl
      | cons p rest =>
        rw [hpos] at h
        by_cases hup : p.upnl < -cfg.stop_loss_usd
        · exfalso; simp [hsl, hup] at h
        · simp [hup]
  · simp [hsl]

lemma attemptCancels_all_ok (env : Env) (os : List OpenOrder)
    (h : ∀ o ∈ os, env.cancel_result o.cl_ord_id = Call.ok ()) :
    attemptCancels env os = (os.map (fun o => o.cl_ord_id), true) := by
  induction os with
  | nil => rfl
  | cons o rest ih =>
    have h1 := h o (List.mem_cons_self o rest)
    have h2 := ih fun x hx => h x (List.mem_cons_of_mem _ hx)
    simp [attemptCancels, h1, h2]

/-! ## Concrete instances used by witnesses and counterexamples -/

/-- A baseline configuration mirroring typical config.yaml values
(DEX-only mode: `binance_symbol` unset). -/
def cfgBase : Config :=
  { symbol := "BTC-USD", binance_symbol := "", order_size_btc := 1/1000,
    max_position_btc := 1/100, max_skew_bps := 0, rebalance_distance_bps := 30,
    order_distance_tight_min_bps := 10, order_distance_tight_max_bps := 10,
    order_distance_far_min_bps := 25, order_distance_far_max_bps := 25,
    cancel_distance_min_bps := 5, cancel_distance_max_bps := 5,
    volatility_window_sec := 5, volatility_threshold_bps := 0,
    stop_loss_usd := 0, stop_loss_cooldown_sec := 600,
    recovery_window_sec := 300, recovery_volatility_bps := 25,
    recovery_check_interval_sec := 300, dex_staleness_sec := 0,
    binance_staleness_sec := 5, spread_threshold_bps := 20, spread_warn_bps := 12,
    spread_recovery_bps := 10, amplitude_window_sec := 10,
    amplitude_ratio_threshold := 1/2, amplitude_warn_ratio_threshold := 3/10,
    velocity_check_window_sec := 1, velocity_tick_threshold := 3,
    velocity_warn_tick_threshold := 2, volume_window_sec := 60,
    volume_min_samples := 10, volume_warn_ratio := 5/2, volume_guard_ratio := 4,
    risk_guard_cooldown_sec := 15, risk_recovery_stable_sec := 15,
    caution_other_side_enabled := true, taker_fee_rate := 1/2500,
    min_profit_bps := 2, fill_cooldown_sec := 10 }

/-- Baseline flags: nothing active. -/
def flBase : Flags :=
  { stop_loss_active := false, next_recovery_check := 0, risk_guard_active := false,
    risk_guard_cooldown_until := 0, risk_guard_stable_start := none,
    pending_close := false }

/-- A baseline state: flat position, fresh DEX price 60000. -/
def stBase : State :=
  { last_dex_price := some 60000, last_cex_price := none,
    last_dex_update_time := 0, last_cex_update_time := 0,
    dex_price_window := [(0, 60000)], cex_price_window := [],
    cex_volume_window := [], position := 0, entry_price := 0,
    last_fill_time := 0, buy_order := none, sell_order := none }

/-- A baseline benign environment: no positions, no open orders, every
call succeeds. -/
def envBase : Env :=
  { positions := Call.ok [], open_orders := Call.ok [],
    cancel_result := fun _ => Call.ok (), batch_cancel_result := Call.ok (),
    new_order_result := Call.ok ⟨some 0, false⟩ }

/-- C1 -- If `stop_loss_usd > 0` and the venue-reported unrealized PnL is
below `-stop_loss_usd`, then `_check_stop_loss` triggers: it enters
recovery mode with the next recovery check at
`now + stop_loss_cooldown_sec` regardless of any exception raised
while cancelling or while placing the flatten order; when the position
is non-zero it submits a market reduce-only order of size `|qty|` on
the exit side (sell if long, buy if short); and when the open-orders
query and every cancel succeed, every queried open order is cancelled
and the local order store is cleared. -/
theorem stop_loss_flattens_and_enters_recovery (cfg : Config) (env : Env) (st : State)
    (fl : Flags) (now : ℚ) (p : PosInfo) (l : List PosInfo)
    (hsl : 0 < cfg.stop_loss_usd)
    (hq : env.positions = Call.ok (p :: l))
    (hloss : p.upnl < -cfg.stop_loss_usd) :
    (checkStopLoss cfg env st fl now).triggered = true ∧
    (checkStopLoss cfg env st fl now).flags.stop_loss_active = true ∧
    (checkStopLoss cfg env st fl now).flags.next_recovery_check
      = now + cfg.stop_loss_cooldown_sec ∧
    (p.qty ≠ 0 →
      (checkStopLoss cfg env st fl now).placements
        = [⟨(if 0 < p.qty then Side.sell else Side.buy), |p.qty|, 0, true, true⟩]) ∧
    (∀ os, env.open_orders = Call.ok os →
      (∀ o ∈ os, env.cancel_result o.cl_ord_id = Call.ok ()) →
      (checkStopLoss cfg env st fl now).cancels = os.map (fun o => o.cl_ord_id) ∧
      (checkStopLoss cfg env st fl now).st.buy_order = none ∧
      (checkStopLoss cfg env st fl now).st.sell_order = none) := by
  have hmain : checkStopLoss cfg env st fl now
      = (let cres :=
          match env.open_orders with
          | Call.exn => (([] : List String), false)
          | Call.ok os => attemptCancels env os
        let st1 := if cres.2 then st.clear_all_orders else st
        let qty := |p.qty|
        let placements :=
          if 0 < qty then
            [⟨(if 0 < p.qty then Side.sell else Side.buy), qty, 0, true, true⟩]
          else ([] : List Placement)
        let st2 :=
          if 0 < qty then
            match env.new_order_result with
            | Call.ok _ => st1.update_position 0 0
            | Call.exn => st1
          else st1
        ⟨true, st2,
          { fl with stop_loss_active := true, pending_close := false,
                    next_recovery_check := now + cfg.stop_loss_cooldown_sec },
          cres.1, placements⟩) := by
    unfold checkStopLoss
    simp [hsl, hq, hloss]
  refine ⟨by rw [hmain], by rw [hmain], by rw [hmain], ?_, ?_⟩
  · intro hqty
    rw [hmain]
    simp [abs_pos.mpr hqty]
  · intro os hos hok
    rw [hmain]
    simp only [hos, attemptCancels_all_ok env os hok]
    refine ⟨by simp, ?_⟩
    by_cases hqty : 0 < |p.qty| <;>
      cases hnor : env.new_order_result <;>
        simp [hqty, hnor, State.update_position, State.clear_all_orders]

/-- Witness for C1 at a concrete input: a long position of 0.01 with
uPNL -60 against a stop loss of 50 triggers the recovery transition
with next check at 7 + 600 — even though every cancel call raises. -/
theorem stop_loss_flattens_and_enters_recovery_witness :
    (0:ℚ) < ({ cfgBase with stop_loss_usd := 50 } : Config).stop_loss_usd ∧
    (-60 : ℚ) < -({ cfgBase with stop_loss_usd := 50 } : Config).stop_loss_usd ∧
    (checkStopLoss { cfgBase with stop_loss_usd := 50 }
      { envBase with positions := Call.ok [⟨1/100, 60000, -60⟩],
                     open_orders := Call.ok [⟨"b1", Side.buy, 59940, 1/1000⟩],
                     cancel_result := fun _ => Call.exn }
      { stBase with position := 1/100, entry_price := 60000,
                    buy_order := some ⟨"b1", Side.buy, 59940, 1/1000⟩ }
      flBase 7).flags.stop_loss_active = true ∧
    (checkStopLoss { cfgBase with stop_loss_usd := 50 }
      { envBase with positions := Call.ok [⟨1/100, 60000, -60⟩],
                     open_orders := Call.ok [⟨"b1", Side.buy, 59940, 1/1000⟩],
                     cancel_result := fun _ => Call.exn }
      { stBase with position := 1/100, entry_price := 60000,
                    buy_order := some ⟨"b1", Side.buy, 59940, 1/1000⟩ }
      flBase 7).flags.next_recovery_check = 607 := by
  have h := stop_loss_flattens_and_enters_recovery
    { cfgBase with stop_loss_usd := 50 }
    { envBase with positions := Call.ok [⟨1/100, 60000, -60⟩],
                   open_orders := Call.ok [⟨"b1", Side.buy, 59940, 1/1000⟩],
                   cancel_result := fun _ => Call.exn }
    { stBase with position := 1/100, entry_price := 60000,
                  buy_order := some ⟨"b1", Side.buy, 59940, 1/1000⟩ }
    flBase 7 ⟨1/100, 60000, -60⟩ []
    (by norm_num [cfgBase]) rfl (by norm_num [cfgBase])
  refine ⟨by norm_num [cfgBase], by norm_num [cfgBase], h.2.1, ?_⟩
  rw [h.2.2.1]; norm_num [cfgBase]

/-! ## C4: dynamic distances -/

lemma min_le_lerp (a b r : ℚ) (h0 : 0 ≤ r) (h1 : r ≤ 1) : min a b ≤ lerp a b r := by
  rcases le_total a b with hab | hab
  · have hge : 0 ≤ (b - a) * r := mul_nonneg (by linarith) h0
    rw [min_eq_left hab]
    unfold lerp
    linarith
  · have hge : (b - a) * 1 ≤ (b - a) * r := by
      apply mul_le_mul_of_nonpos_left h1
      linarith
    rw [min_eq_right hab]
    unfold lerp
    linarith

/-- A configuration with both tight-distance endpoints 0 (all other
fields as `cfgBase`). -/
def cfgTightZero : Config :=
  { cfgBase with
    order_distance_tight_min_bps := 0
    order_distance_tight_max_bps := 0 }

/-- C4 counterexample: with `order_distance_tight_min_bps =
order_distance_tight_max_bps = 0` (and volatility ratio 0, which lies
in [0,1]) the computed cancel distance is `0.1` while the tight
distance is `0`, so `cancel < tight` fails. -/
theorem dynamic_distances_counterexample :
    (0:ℚ) ≤ 0 ∧ (0:ℚ) ≤ 1 ∧
    ¬ ((dynamicDistances cfgTightZero 0).2.2 < (dynamicDistances cfgTightZero 0).1) := by
  norm_num [dynamicDistances, lerp, cfgTightZero, cfgBase]

/-- C4 (amended) -- For every configuration whose tight-distance
interpolation endpoints are both at least 0.2 bps and every volatility
ratio in [0,1], `_get_dynamic_distances` returns `cancel < tight`
strictly with `tight - cancel ≥ 0.1` bps.  (Without that bound the
clamp `min(cancel, max(0.1, tight - 0.1))` can sit at or above
`tight`, as the counterexample shows.) -/
theorem dynamic_distances_amended (cfg : Config) (r : ℚ) (h0 : 0 ≤ r) (h1 : r ≤ 1)
    (ht1 : 1/5 ≤ cfg.order_distance_tight_min_bps)
    (ht2 : 1/5 ≤ cfg.order_distance_tight_max_bps) :
    (dynamicDistances cfg r).2.2 < (dynamicDistances cfg r).1 ∧
    1/10 ≤ (dynamicDistances cfg r).1 - (dynamicDistances cfg r).2.2 := by
  have hmin := min_le_lerp cfg.order_distance_tight_min_bps
    cfg.order_distance_tight_max_bps r h0 h1
  have ht : (1/5 : ℚ) ≤ lerp cfg.order_distance_tight_min_bps
      cfg.order_distance_tight_max_bps r :=
    le_trans (le_min ht1 ht2) hmin
  simp only [dynamicDistances]
  rw [max_eq_right (by linarith :
    (1/10 : ℚ) ≤ lerp cfg.order_distance_tight_min_bps
      cfg.order_distance_tight_max_bps r - 1/10)]
  have hle := min_le_right
    (lerp cfg.cancel_distance_min_bps cfg.cancel_distance_max_bps r)
    (lerp cfg.order_distance_tight_min_bps cfg.order_distance_tight_max_bps r - 1/10)
  constructor <;> [linarith; linarith]

/-- Witness for the amended C4 at the baseline configuration
(tight endpoints 10 bps) and ratio 1/2. -/
theorem dynamic_distances_amended_witness :
    ((0:ℚ) ≤ 1/2 ∧ (1/2:ℚ) ≤ 1 ∧
      (1/5:ℚ) ≤ cfgBase.order_distance_tight_min_bps ∧
      (1/5:ℚ) ≤ cfgBase.order_distance_tight_max_bps) ∧
    ((dynamicDistances cfgBase (1/2)).2.2 < (dynamicDistances cfgBase (1/2)).1 ∧
      1/10 ≤ (dynamicDistances cfgBase (1/2)).1 - (dynamicDistances cfgBase (1/2)).2.2) :=
  ⟨⟨by norm_num, by norm_num, by norm_num [cfgBase], by norm_num [cfgBase]⟩,
    dynamic_distances_amended cfgBase (1/2) (by norm_num) (by norm_num)
      (by norm_num [cfgBase]) (by norm_num [cfgBase])⟩

/-! ## C6: CEX danger cancels -/

lemma orderCancelDecision_buy_danger (d c : ℚ) (b : ℚ × ℚ) (o : OpenOrder)
    (hc : 0 < c) (hgap : (c - o.price) / c * 10000 < 2) :
    (orderCancelDecision d (some c) b Side.buy o).1 = true := by
  unfold orderCancelDecision
  simp only [ne_of_gt hc, hc, hgap, ne_eq, not_false_eq_true, and_self, if_true,
    decide_eq_true_eq]
  split_ifs <;> simp_all

lemma orderCancelDecision_sell_danger (d c : ℚ) (b : ℚ × ℚ) (o : OpenOrder)
    (hc : 0 < c) (hgap : (o.price - c) / c * 10000 < 2) :
    (orderCancelDecision d (some c) b Side.sell o).1 = true := by
  unfold orderCancelDecision
  simp only [ne_of_gt hc, hc, hgap, ne_eq, not_false_eq_true, and_self, if_true,
    decide_eq_true_eq]
  split_ifs <;> simp_all

/-- C6 -- For every tracked order and every positive CEX price, if the
gap on the unfavourable side is below 2 bps (buy:
`(cex - price)/cex·10⁴ < 2`; sell: `(price - cex)/cex·10⁴ < 2`), the
order is in the `orders` list returned by `get_orders_to_cancel`,
whatever the cancel bands are (in particular even when the DEX-price
distance lies inside its band). -/
theorem cex_danger_forces_cancel (st : State) (bb sb : ℚ × ℚ) (d c : ℚ)
    (hd : st.last_dex_price = some d) (hd0 : 0 < d)
    (hc : st.last_cex_price = some c) (hc0 : 0 < c) :
    (∀ o, st.buy_order = some o → (c - o.price) / c * 10000 < 2 →
      o ∈ (st.get_orders_to_cancel bb sb).orders) ∧
    (∀ o, st.sell_order = some o → (o.price - c) / c * 10000 < 2 →
      o ∈ (st.get_orders_to_cancel bb sb).orders) := by
  constructor
  · intro o ho hgap
    have hdec := orderCancelDecision_buy_danger d c bb o hc0 hgap
    have hin : (cancelStep d (some c) bb Side.buy st.buy_order ⟨[], []⟩).orders = [o] := by
      simp [cancelStep, ho, hdec]
    simp only [State.get_orders_to_cancel, hd, hc]
    cases hso : st.sell_order with
    | none => simp [cancelStep, hso, hc] at hin ⊢; simp [hin]
    | some o2 =>
      simp only [cancelStep, hso, hc] at hin ⊢
      rw [hin]
      simp
  · intro o ho hgap
    have hdec := orderCancelDecision_sell_danger d c sb o hc0 hgap
    simp only [State.get_orders_to_cancel, hd, hc]
    simp [cancelStep, ho, hdec]

/-- State with a resting buy at 59950, DEX 60000, CEX 59951. -/
def stCexDanger : State :=
  { stBase with
    last_cex_price := some 59951
    buy_order := some ⟨"b1", Side.buy, 59950, 1/1000⟩ }

/-- Witness for C6: a resting buy at 59950 with DEX 60000 (distance
8.33 bps, inside the band (5,100)) is cancelled once the CEX price
drops to 59951 (gap 0.17 bps < 2). -/
theorem cex_danger_forces_cancel_witness :
    ((⟨"b1", Side.buy, 59950, 1/1000⟩ : OpenOrder)
      ∈ (stCexDanger.get_orders_to_cancel (5, 100) (5, 100)).orders) ∧
    (5 : ℚ) < |(59950 : ℚ) - 60000| / 60000 * 10000 ∧
    |(59950 : ℚ) - 60000| / 60000 * 10000 < 100 :=
  ⟨(cex_danger_forces_cancel stCexDanger
      (5, 100) (5, 100) 60000 59951 (by norm_num [stCexDanger, stBase]) (by norm_num)
      (by norm_num [stCexDanger, stBase]) (by norm_num)).1
    ⟨"b1", Side.buy, 59950, 1/1000⟩ (by norm_num [stCexDanger, stBase]) (by norm_num),
    by rw [abs_of_nonpos (by norm_num)]; norm_num,
    by rw [abs_of_nonpos (by norm_num)]; norm_num⟩

/-! ## C10: local order tracking is atomic w.r.t. venue failures -/

/-- C10 -- If `cancel_order` raises, the tracked `OpenOrder` for that
side stays in the state store unchanged; if `new_order` raises, or
returns a response whose `code` is not 0, `_place_order` adds no
`OpenOrder` record (the state store is unchanged). -/
theorem order_tracking_atomic_on_failure (cfg : Config) (env : Env) (st st2 : State)
    (o : OpenOrder) (side : Side) (price : ℚ) (qty : Option ℚ) (ro : Bool)
    (cid : String) (r : Resp)
    (hc : env.cancel_result o.cl_ord_id = Call.exn)
    (hr : r.code ≠ some 0) :
    (cancelTrackedOrder env st o).1 = st ∧
    (place_order cfg Call.exn st2 side price qty ro cid).1 = st2 ∧
    (place_order cfg (Call.ok r) st2 side price qty ro cid).1 = st2 := by
  refine ⟨?_, ?_, ?_⟩
  · simp [cancelTrackedOrder, hc]
  · simp [place_order]
  · simp [place_order, hr]

/-- Witness for C10 at concrete inputs: a raising cancel keeps the
tracked sell order; a raising or `code = 1` placement adds nothing. -/
theorem order_tracking_atomic_on_failure_witness :
    (({ envBase with cancel_result := fun _ => Call.exn } : Env).cancel_result "s1"
        = Call.exn) ∧
    ((⟨some 1, false⟩ : Resp).code ≠ some 0) ∧
    (cancelTrackedOrder { envBase with cancel_result := fun _ => Call.exn }
        { stBase with sell_order := some ⟨"s1", Side.sell, 60060, 1/1000⟩ }
        ⟨"s1", Side.sell, 60060, 1/1000⟩).1
      = { stBase with sell_order := some ⟨"s1", Side.sell, 60060, 1/1000⟩ } ∧
    (place_order cfgBase Call.exn stBase Side.buy 59940 none false "mm-buy-1").1
      = stBase ∧
    (place_order cfgBase (Call.ok ⟨some 1, false⟩) stBase Side.buy 59940 none false
        "mm-buy-1").1 = stBase :=
  ⟨rfl, by decide,
    order_tracking_atomic_on_failure cfgBase
      { envBase with cancel_result := fun _ => Call.exn }
      { stBase with sell_order := some ⟨"s1", Side.sell, 60060, 1/1000⟩ } stBase
      ⟨"s1", Side.sell, 60060, 1/1000⟩ Side.buy 59940 none false "mm-buy-1"
      ⟨some 1, false⟩ rfl (by decide)⟩

/-! ## Tick placement lemmas -/

lemma spreadBpsAt_of_no_binance (cfg : Config) (st : State) (h : cfg.binance_symbol = "") :
    spreadBpsAt cfg st = none := by
  unfold spreadBpsAt
  cases st.last_cex_price <;> cases st.last_dex_price <;> simp [h]

lemma tickFromStopLoss_not_triggered (cfg : Config) (env : Env) (st : State) (fl : Flags)
    (now : ℚ) (h : stopLossTriggersB cfg env = false) :
    tickFromStopLoss cfg env st fl now = tickFromStaleness cfg env st fl now := by
  unfold tickFromStopLoss
  rw [checkStopLoss_not_triggered cfg env st fl now h]
  simp

lemma tickCancelRegion_placements (cfg : Config) (st : State) (fl : Flags) (now : ℚ)
    (carried : List Placement) :
    (tickCancelRegion cfg st fl now carried).placements = carried := rfl

lemma tickPlanning_placements (cfg : Config) (env : Env) (st : State) (fl : Flags)
    (now : ℚ) :
    (tickPlanning cfg env st fl now).placements
      = (checkAndReducePosition cfg env st).placements := by
  simp only [tickPlanning]
  split_ifs <;> rfl

lemma tickGuards_placements (cfg : Config) (env : Env) (st : State) (fl : Flags) (now : ℚ) :
    (tickGuards cfg env st fl now).placements = []
      ∨ (tickGuards cfg env st fl now).placements
          = (checkAndReducePosition cfg env st).placements := by
  simp only [tickGuards]
  split_ifs <;> first
    | (left; rfl)
    | (right; exact tickPlanning_placements cfg env st fl now)

lemma tickMain_placements (cfg : Config) (env : Env) (st : State) (fl : Flags) (now : ℚ) :
    (tickMain cfg env st fl now).placements = []
      ∨ (tickMain cfg env st fl now).placements
          = (checkAndReducePosition cfg env st).placements := by
  simp only [tickMain]
  split_ifs <;> first
    | (left; rfl)
    | (exact tickGuards_placements cfg env st _ now)

lemma tickFromStaleness_placements (cfg : Config) (env : Env) (st : State) (fl : Flags)
    (now : ℚ) :
    (tickFromStaleness cfg env st fl now).placements = []
      ∨ (tickFromStaleness cfg env st fl now).placements
          = (checkAndReducePosition cfg env st).placements := by
  unfold tickFromStaleness
  split_ifs <;> first
    | (left; rfl)
    | (exact tickMain_placements cfg env st fl now)

lemma tick_placements_cases (cfg : Config) (env : Env) (st : State) (fl : Flags) (now : ℚ) :
    (tick cfg env st fl now).placements = []
      ∨ (∃ fl1, (tick cfg env st fl now).placements
          = (checkStopLoss cfg env st fl1 now).placements)
      ∨ (tick cfg env st fl now).placements
          = (checkAndReducePosition cfg env st).placements := by
  have hfrom : ∀ fl2, (tickFromStopLoss cfg env st fl2 now).placements = []
      ∨ (∃ fl1, (tickFromStopLoss cfg env st fl2 now).placements
          = (checkStopLoss cfg env st fl1 now).placements)
      ∨ (tickFromStopLoss cfg env st fl2 now).placements
          = (checkAndReducePosition cfg env st).placements := by
    intro fl2
    simp only [tickFromStopLoss]
    split_ifs
    · exact Or.inr (Or.inl ⟨fl2, rfl⟩)
    · rcases tickFromStaleness_placements cfg env st fl2 now with h | h
      · exact Or.inl h
      · exact Or.inr (Or.inr h)
  unfold tick
  split_ifs <;> first
    | (left; rfl)
    | (exact hfrom _)

lemma checkStopLoss_placements_shape (cfg : Config) (env : Env) (st : State) (fl : Flags)
    (now : ℚ) :
    ∀ pl ∈ (checkStopLoss cfg env st fl now).placements,
      pl.is_market = true ∧ pl.reduce_only = true ∧
      ∃ p l, env.positions = Call.ok (p :: l) ∧ p.qty ≠ 0 ∧
        pl = ⟨(if 0 < p.qty then Side.sell else Side.buy), |p.qty|, 0, true, true⟩ := by
  unfold checkStopLoss
  by_cases hsl : 0 < cfg.stop_loss_usd
  · cases hq : env.positions with
    | exn => simp [hsl]
    | ok lp =>
      cases lp with
      | nil => simp [hsl]
      | cons p rest =>
        by_cases hup : p.upnl < -cfg.stop_loss_usd
        · by_cases hqty : 0 < |p.qty|
          · intro pl hpl
            simp only [hsl, hup, hqty, not_true_eq_false, if_false, if_true,
              List.mem_singleton] at hpl
            subst hpl
            exact ⟨rfl, rfl, p, rest, rfl, abs_pos.mp hqty, rfl⟩
          · simp [hsl, hup, hqty]
        · simp [hsl, hup]
  · simp [hsl]

lemma checkStopLoss_placements_len (cfg : Config) (env : Env) (st : State) (fl : Flags)
    (now : ℚ) :
    (checkStopLoss cfg env st fl now).placements.length ≤ 1 := by
  unfold checkStopLoss
  by_cases hsl : 0 < cfg.stop_loss_usd
  · cases hq : env.positions with
    | exn => simp [hsl]
    | ok lp =>
      cases lp with
      | nil => simp [hsl]
      | cons p rest =>
        by_cases hup : p.upnl < -cfg.stop_loss_usd <;> by_cases hqty : 0 < |p.qty| <;>
          simp [hsl, hup, hqty]
  · simp [hsl]

lemma checkAndReduce_placements_shape (cfg : Config) (env : Env) (st : State) :
    ∀ pl ∈ (checkAndReducePosition cfg env st).placements,
      pl.is_market = true ∧ pl.reduce_only = true ∧ st.position ≠ 0 ∧
        pl = ⟨(if 0 < st.position then Side.sell else Side.buy), |st.position|, 0,
          true, true⟩ := by
  unfold checkAndReducePosition
  by_cases h0 : |st.position| = 0
  · simp [h0]
  · cases hq : env.positions with
    | exn => simp [h0]
    | ok lp =>
      cases lp with
      | nil => simp [h0]
      | cons p rest =>
        by_cases hup : (0:ℚ) < p.upnl
        · have hpos : st.position ≠ 0 := fun hc => h0 (by rw [hc]; simp)
          cases hnor : env.new_order_result with
          | exn =>
            intro pl hpl
            simp only [h0, hup, hnor, not_true_eq_false, if_false,
              List.mem_singleton] at hpl
            subst hpl
            exact ⟨rfl, rfl, hpos, rfl⟩
          | ok resp =>
            by_cases hok : resp.code = some 0 ∨ resp.has_id
            · intro pl hpl
              simp only [h0, hup, hnor, hok, not_true_eq_false, if_false, if_true,
                List.mem_singleton] at hpl
              subst hpl
              exact ⟨rfl, rfl, hpos, rfl⟩
            · intro pl hpl
              simp only [h0, hup, hnor, hok, not_true_eq_false, if_false,
                List.mem_singleton] at hpl
              subst hpl
              exact ⟨rfl, rfl, hpos, rfl⟩
        · simp [h0, hup]

lemma checkAndReduce_placements_len (cfg : Config) (env : Env) (st : State) :
    (checkAndReducePosition cfg env st).placements.length ≤ 1 := by
  unfold checkAndReducePosition
  by_cases h0 : |st.position| = 0
  · simp [h0]
  · cases hq : env.positions with
    | exn => simp [h0]
    | ok lp =>
      cases lp with
      | nil => simp [h0]
      | cons p rest =>
        by_cases hup : (0:ℚ) < p.upnl
        · cases hnor : env.new_order_result with
          | exn => simp [h0, hup, hnor]
          | ok resp =>
            by_cases hok : resp.code = some 0 ∨ resp.has_id <;> simp [h0, hup, hnor, hok]
        · simp [h0, hup]

lemma tick_placements_shape (cfg : Config) (env : Env) (st : State) (fl : Flags) (now : ℚ) :
    ∀ pl ∈ (tick cfg env st fl now).placements,
      pl.is_market = true ∧ pl.reduce_only = true ∧
      ((∃ p l, env.positions = Call.ok (p :: l) ∧ p.qty ≠ 0 ∧
          pl = ⟨(if 0 < p.qty then Side.sell else Side.buy), |p.qty|, 0, true, true⟩)
        ∨ (st.position ≠ 0 ∧
            pl = ⟨(if 0 < st.position then Side.sell else Side.buy), |st.position|, 0,
              true, true⟩)) := by
  intro pl hpl
  rcases tick_placements_cases cfg env st fl now with h | ⟨fl1, h⟩ | h
  · rw [h] at hpl; cases hpl
  · rw [h] at hpl
    obtain ⟨h1, h2, p, l, hq, hqty, heq⟩ := checkStopLoss_placements_shape cfg env st fl1 now pl hpl
    exact ⟨h1, h2, Or.inl ⟨p, l, hq, hqty, heq⟩⟩
  · rw [h] at hpl
    obtain ⟨h1, h2, h3, heq⟩ := checkAndReduce_placements_shape cfg env st pl hpl
    exact ⟨h1, h2, Or.inr ⟨h3, heq⟩⟩

lemma tick_placements_len (cfg : Config) (env : Env) (st : State) (fl : Flags) (now : ℚ) :
    (tick cfg env st fl now).placements.length ≤ 1 := by
  rcases tick_placements_cases cfg env st fl now with h | ⟨fl1, h⟩ | h
  · simp [h]
  · rw [h]; exact checkStopLoss_placements_len cfg env st fl1 now
  · rw [h]; exact checkAndReduce_placements_len cfg env st

/-! ## C2: Guard / Stale / Recovery regimes place no orders -/

lemma tickFromStaleness_placements_of_stale (cfg : Config) (env : Env) (st : State)
    (fl : Flags) (now : ℚ)
    (h : dexStaleCond cfg st now = true ∨ cexStaleCond cfg st now = true) :
    (tickFromStaleness cfg env st fl now).placements = [] := by
  unfold tickFromStaleness
  rcases h with h | h
  · simp [h]
  · by_cases h2 : dexStaleCond cfg st now <;> simp [h, h2]

lemma tickMain_placements_of_hold (cfg : Config) (env : Env) (st : State) (fl : Flags)
    (now : ℚ) (h : guardHoldB cfg st fl now = true) :
    (tickMain cfg env st fl now).placements = [] := by
  unfold guardHoldB at h
  rw [Bool.and_eq_true] at h
  obtain ⟨hact, hrest⟩ := h
  unfold tickMain
  by_cases h1 : now < fl.risk_guard_cooldown_until
  · simp [hact, h1, TickRes.quiet]
  · by_cases h2 : riskGuardStable cfg st now
    · by_cases h3 :
        now - fl.risk_guard_stable_start.getD now < cfg.risk_recovery_stable_sec
      · simp [hact, h1, h2, h3, TickRes.quiet]
      · exfalso
        simp [h1, h2, h3] at hrest
    · simp [hact, h1, h2, TickRes.quiet]

/-- C2 -- On a tick whose risk regime is Recovery (stop-loss recovery
mode holds: active and still waiting or still volatile), Stale (a DEX
or CEX staleness threshold is exceeded) or Guard (the risk guard is
active and its cooldown / stability conditions hold) — with the
stop-loss check not firing in the Stale/Guard cases, which would move
the regime to Recovery — the tick submits zero new orders. -/
theorem regime_blocks_new_orders (cfg : Config) (env : Env) (st : State) (fl : Flags)
    (now : ℚ)
    (h : recoveryHoldB cfg st fl now = true
      ∨ (stopLossTriggersB cfg env = false ∧
          (dexStaleCond cfg st now = true ∨ cexStaleCond cfg st now = true))
      ∨ (stopLossTriggersB cfg env = false ∧ guardHoldB cfg st fl now = true)) :
    (tick cfg env st fl now).placements = [] := by
  unfold tick
  by_cases hdex : st.last_dex_price = none
  · simp [hdex, TickRes.quiet]
  rcases h with h | ⟨htrig, hstale⟩ | ⟨htrig, hhold⟩
  · unfold recoveryHoldB at h
    rw [Bool.and_eq_true] at h
    obtain ⟨hact, hrest⟩ := h
    by_cases h1 : now < fl.next_recovery_check
    · simp [hdex, hact, h1, TickRes.quiet]
    · have h2 : (st.get_volatility_bps (some cfg.recovery_window_sec) Source.auto
          now).gtQ cfg.recovery_volatility_bps = true := by
        simp [h1] at hrest
        exact hrest
      simp [hdex, hact, h1, h2, TickRes.quiet]
  · have key : ∀ fl2, (tickFromStopLoss cfg env st fl2 now).placements = [] := by
      intro fl2
      rw [tickFromStopLoss_not_triggered cfg env st fl2 now htrig]
      exact tickFromStaleness_placements_of_stale cfg env st fl2 now hstale
    by_cases hact : fl.stop_loss_active <;>
      by_cases h1 : now < fl.next_recovery_check <;>
        by_cases h2 : (st.get_volatility_bps (some cfg.recovery_window_sec) Source.auto
            now).gtQ cfg.recovery_volatility_bps <;>
          simp [hdex, hact, h1, h2, TickRes.quiet, key]
  · have key : ∀ fl2, guardHoldB cfg st fl2 now = true →
        (tickFromStopLoss cfg env st fl2 now).placements = [] := by
      intro fl2 h2
      rw [tickFromStopLoss_not_triggered cfg env st fl2 now htrig]
      unfold tickFromStaleness
      by_cases hd : dexStaleCond cfg st now
      · simp [hd]
      · by_cases hc : cexStaleCond cfg st now
        · simp [hd, hc]
        · simp only [hd, hc, Bool.false_eq_true, if_false]
          exact tickMain_placements_of_hold cfg env st fl2 now h2
    by_cases hact : fl.stop_loss_active <;>
      by_cases h1 : now < fl.next_recovery_check <;>
        by_cases h2 : (st.get_volatility_bps (some cfg.recovery_window_sec) Source.auto
            now).gtQ cfg.recovery_volatility_bps <;>
          simp [hdex, hact, h1, h2, TickRes.quiet] <;>
            exact key _ hhold

/-- Flags with the risk guard active and cooling down until t=10. -/
def flGuard : Flags :=
  { flBase with
    risk_guard_active := true
    risk_guard_cooldown_until := 10 }

/-- Witness for C2: with the risk guard active and cooling down (and a
disabled stop loss), a tick places nothing. -/
theorem regime_blocks_new_orders_witness :
    ((recoveryHoldB cfgBase stBase flGuard 5 = true
      ∨ (stopLossTriggersB cfgBase envBase = false ∧
          (dexStaleCond cfgBase stBase 5 = true ∨ cexStaleCond cfgBase stBase 5 = true))
      ∨ (stopLossTriggersB cfgBase envBase = false ∧
          guardHoldB cfgBase stBase flGuard 5 = true))) ∧
    (tick cfgBase envBase stBase flGuard 5).placements = [] := by
  refine ⟨Or.inr (Or.inr ⟨?_, ?_⟩), ?_⟩
  · norm_num [stopLossTriggersB, cfgBase, envBase]
  · norm_num [guardHoldB, flGuard, flBase, cfgBase]
  · exact regime_blocks_new_orders cfgBase envBase stBase _ 5
      (Or.inr (Or.inr ⟨by norm_num [stopLossTriggersB, cfgBase, envBase],
        by norm_num [guardHoldB, flGuard, flBase, cfgBase]⟩))

/-! ## C7: at or above the position cap, only the exit side -/

/-- C7 -- On any tick where `|position| ≥ max_position` and
`position ≠ 0` (and the venue position report, when consulted, agrees
with the local position in sign), at most one new order is submitted
and every submitted order is on the exit side (sell if long, buy if
short); no order that would increase the position is placed. -/
theorem position_cap_exit_side_only (cfg : Config) (env : Env) (st : State) (fl : Flags)
    (now : ℚ)
    (hmax : cfg.max_position_btc ≤ |st.position|)
    (hpos : st.position ≠ 0)
    (hagree : ∀ p l, env.positions = Call.ok (p :: l) → (0 < p.qty ↔ 0 < st.position)) :
    (tick cfg env st fl now).placements.length ≤ 1 ∧
    ∀ pl ∈ (tick cfg env st fl now).placements,
      pl.side = (if 0 < st.position then Side.sell else Side.buy) := by
  refine ⟨tick_placements_len cfg env st fl now, ?_⟩
  intro pl hpl
  rcases tick_placements_shape cfg env st fl now pl hpl with ⟨_, _, h | h⟩
  · obtain ⟨p, l, hq, hqty, rfl⟩ := h
    have hiff := hagree p l hq
    by_cases h0 : 0 < st.position
    · simp [h0, hiff.mpr h0]
    · have hnq : ¬ 0 < p.qty := fun hc => h0 (hiff.mp hc)
      simp [h0, hnq]
  · obtain ⟨_, rfl⟩ := h
    rfl

/-- A long position at the cap with positive uPNL reported by the
venue. -/
def stCap : State := { stBase with position := 1/100, entry_price := 60000 }

/-- Environment reporting that position with uPNL +5. -/
def envCap : Env := { envBase with positions := Call.ok [⟨1/100, 60000, 5⟩] }

/-- Witness for C7: at the cap (position 0.01 = max_position), the tick
submits exactly the market reduce-only sell (the profit take). -/
theorem position_cap_exit_side_only_witness :
    (cfgBase.max_position_btc ≤ |stCap.position| ∧ stCap.position ≠ 0) ∧
    (tick cfgBase envCap stCap flBase 20).placements.length ≤ 1 ∧
    (tick cfgBase envCap stCap flBase 20).placements.all
      (fun pl => decide (pl.side = Side.sell)) = true := by
  refine ⟨⟨by norm_num [cfgBase, stCap, stBase, abs_of_pos], by norm_num [stCap, stBase]⟩, ?_, ?_⟩
  · exact (position_cap_exit_side_only cfgBase envCap stCap flBase 20
      (by norm_num [cfgBase, stCap, stBase, abs_of_pos]) (by norm_num [stCap, stBase])
      (by
        intro p l h
        simp only [envCap, envBase, Call.ok.injEq, List.cons.injEq] at h
        obtain ⟨rfl, -⟩ := h
        norm_num [stCap, stBase])).1
  · norm_num [tick, tickFromStopLoss, checkStopLoss, tickFromStaleness, tickMain,
      tickGuards, tickPlanning, checkAndReducePosition, dexStaleCond, cexStaleCond,
      spreadGuardCond, ampGuardCond, volumeGuardCond, spreadBpsAt, ampBpsAt,
      volumeStatsAt, guardTrendDirAt, warnTrendDirAt, trendSource,
      State.get_trend_direction, consecutiveDirection, recentPrices, State.get_window,
      cfgBase, stCap, stBase, flBase, envCap, envBase, TickRes.quiet,
      State.update_position, State.clear_all_orders, abs, max_def,
      Option.some_ne_none]

/-! ## C9: zero last price reports infinite volatility; no quotes -/

/-- C9 -- When the most recent price of the selected window is 0 and
the window holds at least 2 samples, `get_volatility_bps` returns ∞;
and a tick on such a state submits no limit (quote) orders: every
order a tick can submit is a market order (the limit-quote step of
`_tick` is unreachable — the cancel step's dict/list type confusion
raises first). -/
theorem inf_volatility_no_quotes (st : State) (ws : Option ℚ) (src : Source) (now : ℚ)
    (hlen : 2 ≤ (pricesInWindow (st.get_window src) ws now).length)
    (hlast : (pricesInWindow (st.get_window src) ws now).getLastD 0 = 0) :
    st.get_volatility_bps ws src now = RVal.inf ∧
    ∀ cfg env fl now2,
      ((tick cfg env st fl now2).placements.all (fun pl => pl.is_market)) = true := by
  constructor
  · unfold State.get_volatility_bps
    have hwin : st.get_window src ≠ [] := by
      intro hw
      rw [hw] at hlen
      cases ws with
      | none => simp [pricesInWindow] at hlen
      | some w =>
        by_cases h0 : w = 0 <;> simp [pricesInWindow, h0] at hlen
    rw [if_neg hwin, if_neg (by omega), if_pos hlast]
  · intro cfg env fl now2
    rw [List.all_eq_true]
    intro pl hpl
    exact (tick_placements_shape cfg env st fl now2 pl hpl).1

/-- State whose CEX window ends at price 0. -/
def stZero : State := { stBase with cex_price_window := [(0, 1), (1, 0)] }

/-- Witness for C9 at a concrete state with CEX window `[(0,1),(1,0)]`. -/
theorem inf_volatility_no_quotes_witness :
    (2 ≤ (pricesInWindow (stZero.get_window Source.cex) none 1).length ∧
      (pricesInWindow (stZero.get_window Source.cex) none 1).getLastD 0 = 0) ∧
    stZero.get_volatility_bps none Source.cex 1 = RVal.inf ∧
    ((tick cfgBase envBase stZero flBase 1).placements.all
      (fun pl => pl.is_market)) = true := by
  refine ⟨⟨?_, ?_⟩, ?_, ?_⟩
  · simp [stZero, stBase, State.get_window, pricesInWindow]
  · simp [stZero, stBase, State.get_window, pricesInWindow, List.getLastD]
  · exact (inf_volatility_no_quotes stZero none Source.cex 1
      (by simp [stZero, stBase, State.get_window, pricesInWindow])
      (by simp [stZero, stBase, State.get_window, pricesInWindow, List.getLastD])).1
  · exact (inf_volatility_no_quotes stZero none Source.cex 1
      (by simp [stZero, stBase, State.get_window, pricesInWindow])
      (by simp [stZero, stBase, State.get_window, pricesInWindow, List.getLastD])).2
      cfgBase envBase flBase 1

/-! ## C5: aggressive profit take pre-empts the tick -/

lemma cexStaleCond_of_no_binance (cfg : Config) (st : State) (now : ℚ)
    (h : cfg.binance_symbol = "") : cexStaleCond cfg st now = false := by
  simp [cexStaleCond, h]

lemma spreadGuardCond_of_no_binance (cfg : Config) (st : State)
    (h : cfg.binance_symbol = "") : spreadGuardCond cfg st = false := by
  simp [spreadGuardCond, spreadBpsAt_of_no_binance cfg st h]

lemma ampGuardCond_of_no_binance (cfg : Config) (st : State) (now : ℚ)
    (h : cfg.binance_symbol = "") : ampGuardCond cfg st now = false := by
  simp [ampGuardCond, h]

/-- Under the hypotheses that let a tick reach step 1 (DEX price
present, no recovery mode, stop loss not firing, no staleness, risk
guard inactive, no guard trigger; `binance_symbol` empty — with it set
the tick raises `AttributeError` at the imbalance-guard step), the
tick is the result of the profit-take step. -/
lemma tick_reaches_planning (cfg : Config) (env : Env) (st : State) (fl : Flags) (now : ℚ)
    (hdex : ¬ st.last_dex_price = none)
    (hsla : fl.stop_loss_active = false)
    (htrig : stopLossTriggersB cfg env = false)
    (hbin : cfg.binance_symbol = "")
    (hstale : dexStaleCond cfg st now = false)
    (hguard : fl.risk_guard_active = false)
    (htrend : guardTrendDirAt cfg st now = 0)
    (hvolg : volumeGuardCond cfg st now = false) :
    tick cfg env st fl now = tickPlanning cfg env st fl now := by
  unfold tick
  rw [if_neg hdex, hsla]
  simp only [Bool.false_eq_true, if_false]
  rw [tickFromStopLoss_not_triggered cfg env st fl now htrig]
  unfold tickFromStaleness
  rw [hstale, cexStaleCond_of_no_binance cfg st now hbin]
  simp only [Bool.false_eq_true, if_false]
  unfold tickMain
  rw [hguard]
  simp only [Bool.false_eq_true, if_false]
  unfold tickGuards
  rw [spreadGuardCond_of_no_binance cfg st hbin, ampGuardCond_of_no_binance cfg st now hbin,
    hvolg]
  simp [htrend, hbin]

/-- C5 -- If the tick reaches the profit-take step with `position ≠ 0`,
the venue reports unrealized PnL above `min_profit_usd` (the constant
0: `Config` has no such field, so `getattr` yields the default), and
the close submission succeeds (`code == 0` or an `id` in the
response), then the tick submits exactly one market reduce-only order
on the exit side with quantity `|position|`, zeroes the local position
and entry price, and performs no other planning (no cancel-band
checks, no limit quotes) on that tick. -/
theorem profit_take_preempts_tick (cfg : Config) (env : Env) (st : State) (fl : Flags)
    (now : ℚ) (p : PosInfo) (l : List PosInfo) (resp : Resp)
    (hdex : ¬ st.last_dex_price = none)
    (hsla : fl.stop_loss_active = false)
    (hbin : cfg.binance_symbol = "")
    (hstale : dexStaleCond cfg st now = false)
    (hguard : fl.risk_guard_active = false)
    (htrend : guardTrendDirAt cfg st now = 0)
    (hvolg : volumeGuardCond cfg st now = false)
    (hpos : st.position ≠ 0)
    (hq : env.positions = Call.ok (p :: l))
    (hupnl : 0 < p.upnl)
    (hresp : env.new_order_result = Call.ok resp)
    (hok : resp.code = some 0 ∨ resp.has_id) :
    tick cfg env st fl now =
      ⟨ExitPoint.reduced, (st.update_position 0 0).clear_all_orders, fl, [], [],
        [⟨(if 0 < st.position then Side.sell else Side.buy), |st.position|, 0,
          true, true⟩]⟩ := by
  have htrig : stopLossTriggersB cfg env = false := by
    unfold stopLossTriggersB
    rw [hq]
    by_cases hsl : 0 < cfg.stop_loss_usd
    · have hn : ¬ (p.upnl < -cfg.stop_loss_usd) := by linarith
      simp [hn]
    · simp [hsl]
  have hreduce : checkAndReducePosition cfg env st =
      ⟨true, (st.update_position 0 0).clear_all_orders,
        [⟨(if 0 < st.position then Side.sell else Side.buy), |st.position|, 0,
          true, true⟩]⟩ := by
    unfold checkAndReducePosition
    rw [hq, hresp]
    have h0 : ¬ (|st.position| = 0) := by simpa [abs_eq_zero] using hpos
    simp [h0, hupnl, hok]
  rw [tick_reaches_planning cfg env st fl now hdex hsla htrig hbin hstale hguard htrend
    hvolg]
  simp [tickPlanning, hreduce]

/-- Witness for C5: at the long position 0.01 with venue uPNL +5 and a
successful close, the tick reduces and stops. -/
theorem profit_take_preempts_tick_witness :
    (¬ stCap.last_dex_price = none ∧ flBase.stop_loss_active = false ∧
      cfgBase.binance_symbol = "" ∧ stCap.position ≠ 0 ∧
      envCap.positions = Call.ok [⟨1/100, 60000, 5⟩] ∧ (0:ℚ) < 5) ∧
    tick cfgBase envCap stCap flBase 20 =
      ⟨ExitPoint.reduced, (stCap.update_position 0 0).clear_all_orders, flBase, [], [],
        [⟨Side.sell, |stCap.position|, 0, true, true⟩]⟩ := by
  constructor
  · refine ⟨by simp [stCap, stBase], rfl, rfl, by norm_num [stCap, stBase], rfl,
      by norm_num⟩
  · have h := profit_take_preempts_tick cfgBase envCap stCap flBase 20
      ⟨1/100, 60000, 5⟩ [] ⟨some 0, false⟩
      (by simp [stCap, stBase])
      rfl rfl
      (by norm_num [dexStaleCond, cfgBase, stCap, stBase])
      rfl
      (by norm_num [guardTrendDirAt, State.get_trend_direction, trendSource, cfgBase,
        stCap, stBase, consecutiveDirection, recentPrices, State.get_window])
      (by norm_num [volumeGuardCond, volumeStatsAt, cfgBase, stCap, stBase])
      (by norm_num [stCap, stBase])
      rfl
      (by norm_num [stCap, stBase])
      rfl
      (Or.inl rfl)
    rw [h]
    norm_num [stCap, stBase]

/-! ## C3: cooldown with flat position -/

/-- Flat state in fill cooldown with a resting sell 2 bps from the DEX
price (inside the lower cancel edge 5 bps, i.e. due for cancel). -/
def stCool : State :=
  { stBase with sell_order := some ⟨"s1", Side.sell, 60012, 1/1000⟩ }

/-- C3 counterexample: at `now = 5` with `last_fill_ts = 0` and
`fill_cooldown_sec = 10` the cooldown is active and the position is 0;
the tracked sell at 60012 sits 2 bps from DEX 60000, outside its
cancel band (the tick's bands are (5,30) for this configuration), so
`get_orders_to_cancel` would schedule it — yet the tick returns at the
cooldown check: it cancels nothing and the order stays tracked. -/
theorem cooldown_skips_cancel_counterexample :
    (5 - stCool.last_fill_time < cfgBase.fill_cooldown_sec ∧ stCool.position = 0) ∧
    (stCool.get_orders_to_cancel (5, 30) (5, 30)).orders
      = [⟨"s1", Side.sell, 60012, 1/1000⟩] ∧
    (tick cfgBase envBase stCool flBase 5).exitPoint = ExitPoint.cooldownSkip ∧
    (tick cfgBase envBase stCool flBase 5).cancels = [] ∧
    (tick cfgBase envBase stCool flBase 5).st.sell_order
      = some ⟨"s1", Side.sell, 60012, 1/1000⟩ := by
  refine ⟨⟨by norm_num [stCool, stBase, cfgBase], by norm_num [stCool, stBase]⟩, ?_, ?_⟩
  · norm_num [State.get_orders_to_cancel, cancelStep, orderCancelDecision, stCool,
      stBase, abs, max_def]
  · norm_num [tick, tickFromStopLoss, checkStopLoss, tickFromStaleness, tickMain,
      tickGuards, tickPlanning, checkAndReducePosition, dexStaleCond, cexStaleCond,
      spreadGuardCond, ampGuardCond, volumeGuardCond, spreadBpsAt, ampBpsAt,
      volumeStatsAt, guardTrendDirAt, warnTrendDirAt, trendSource,
      State.get_trend_direction, consecutiveDirection, recentPrices, State.get_window,
      cfgBase, stCool, stBase, flBase, envBase, TickRes.quiet, Option.some_ne_none]

/-- C3 (amended) -- On a tick that reaches the cooldown check (no
recovery, stop-loss, staleness, guard or guard-trigger pre-emption)
with `now - last_fill_ts < fill_cooldown_sec` and `position = 0`, the
tick returns at the cooldown check **before** the cancel-band step: no
new quotes are placed, but also no existing order is evaluated against
its cancel band or cancelled on that tick (state and flags are left
unchanged). -/
theorem cooldown_skips_whole_tick (cfg : Config) (env : Env) (st : State) (fl : Flags)
    (now : ℚ)
    (hdex : ¬ st.last_dex_price = none)
    (hsla : fl.stop_loss_active = false)
    (htrig : stopLossTriggersB cfg env = false)
    (hbin : cfg.binance_symbol = "")
    (hstale : dexStaleCond cfg st now = false)
    (hguard : fl.risk_guard_active = false)
    (htrend : guardTrendDirAt cfg st now = 0)
    (hvolg : volumeGuardCond cfg st now = false)
    (hcool : now - st.last_fill_time < cfg.fill_cooldown_sec)
    (hpos : st.position = 0) :
    tick cfg env st fl now = ⟨ExitPoint.cooldownSkip, st, fl, [], [], []⟩ := by
  have hreduce : checkAndReducePosition cfg env st = ⟨false, st, []⟩ := by
    unfold checkAndReducePosition
    simp [hpos]
  rw [tick_reaches_planning cfg env st fl now hdex hsla htrig hbin hstale hguard htrend
    hvolg]
  simp only [tickPlanning, hreduce]
  simp [hcool, hpos]

/-- Witness for the amended C3 at the concrete cooldown state. -/
theorem cooldown_skips_whole_tick_witness :
    ((5:ℚ) - stCool.last_fill_time < cfgBase.fill_cooldown_sec ∧ stCool.position = 0) ∧
    tick cfgBase envBase stCool flBase 5 =
      ⟨ExitPoint.cooldownSkip, stCool, flBase, [], [], []⟩ := by
  refine ⟨⟨by norm_num [stCool, stBase, cfgBase], by norm_num [stCool, stBase]⟩, ?_⟩
  exact cooldown_skips_whole_tick cfgBase envBase stCool flBase 5
    (by simp [stCool, stBase])
    rfl
    (by norm_num [stopLossTriggersB, cfgBase, envBase])
    rfl
    (by norm_num [dexStaleCond, cfgBase, stCool, stBase])
    rfl
    (by norm_num [guardTrendDirAt, State.get_trend_direction, trendSource, cfgBase,
      stCool, stBase, consecutiveDirection, recentPrices, State.get_window])
    (by norm_num [volumeGuardCond, volumeStatsAt, cfgBase, stCool, stBase])
    (by norm_num [stCool, stBase, cfgBase])
    (by norm_num [stCool, stBase])

/-! ## C8: consecutive-direction statistic -/

/-- Length of the run of consecutive diffs with sign `dir` at the
front of a newest-first price list, skipping flat diffs (helper for
relating `walkDir` to the streak). -/
def contLen (dir : ℤ) : List ℚ → ℕ
  | p1 :: p2 :: rest =>
    let diff := p1 - p2
    if diff = 0 then contLen dir (p2 :: rest)
    else if (if 0 < diff then (1:ℤ) else -1) = dir then 1 + contLen dir (p2 :: rest)
    else 0
  | _ => 0

/-- Per the spec's words ("walk samples newest-to-oldest while each
consecutive diff has the same sign; flat diffs are skipped without
breaking the streak"): the direction (±1, 0 when no non-flat diff) and
length of the streak of a newest-first price list.  The spec's signed
count is `(streakCore l).1 * (streakCore l).2`. -/
def streakCore : List ℚ → ℤ × ℕ
  | p1 :: p2 :: rest =>
    let diff := p1 - p2
    if diff = 0 then streakCore (p2 :: rest)
    else
      let d : ℤ := if 0 < diff then 1 else -1
      (d, 1 + contLen d (p2 :: rest))
  | _ => (0, 0)

lemma walkDir_cont (thr : ℕ) (dir : ℤ) (hdir : dir ≠ 0) :
    ∀ (l : List ℚ) (cnt : ℕ),
      walkDir thr l dir cnt =
        if 1 ≤ contLen dir l ∧ thr ≤ cnt + contLen dir l then dir else 0 := by
  intro l
  induction l with
  | nil => intro cnt; simp [walkDir, contLen]
  | cons p1 tail ih =>
    intro cnt
    cases tail with
    | nil => simp [walkDir, contLen]
    | cons p2 rest =>
      by_cases hd : p1 - p2 = 0
      · rw [walkDir, contLen]
        simp only [hd, if_true, if_pos]
        exact ih cnt
      · by_cases hcd : (if 0 < p1 - p2 then (1:ℤ) else -1) = dir
        · rw [walkDir, contLen]
          simp only [hd, if_false, hdir, hcd, if_true]
          by_cases hthr : thr ≤ cnt + 1
          · rw [if_pos hthr]
            have hc : 1 ≤ 1 + contLen dir (p2 :: rest) := by omega
            rw [if_pos ⟨hc, by omega⟩]
          · rw [if_neg hthr, ih (cnt + 1)]
            split_ifs <;> first | rfl | omega
        · rw [walkDir, contLen]
          simp only [hd, if_false, hdir, hcd]
          simp

lemma walkDir_zero (thr : ℕ) :
    ∀ l : List ℚ,
      walkDir thr l 0 0 =
        if 1 ≤ (streakCore l).2 ∧ thr ≤ (streakCore l).2 then (streakCore l).1
        else 0 := by
  intro l
  induction l with
  | nil => simp [walkDir, streakCore]
  | cons p1 tail ih =>
    cases tail with
    | nil => simp [walkDir, streakCore]
    | cons p2 rest =>
      by_cases hd : p1 - p2 = 0
      · rw [walkDir, streakCore]
        simp only [hd, if_true, if_pos]
        exact ih
      · have hcd : (if 0 < p1 - p2 then (1:ℤ) else -1) ≠ 0 := by
          split_ifs <;> decide
        rw [walkDir, streakCore]
        simp only [hd, if_false]
        by_cases hthr : thr ≤ 1
        · simp only [hthr, if_true]
          split_ifs <;> omega
        · simp only [hthr, if_false]
          rw [walkDir_cont thr _ hcd (p2 :: rest) 1]
          split_ifs <;> first | rfl | omega

/-- C8 counterexample: on the window `[(0,1),(1,2),(2,3),(3,4)]`
(prices 1,2,3,4 at times 0..3) with `window_sec = 100`, threshold 2,
`now = 3`, the streak is 3 up-ticks long, so the spec's signed count
is +3 — but `_get_consecutive_direction` returns 1 (the direction
only), and 1 ≠ 3. -/
theorem consecutive_direction_counterexample :
    consecutiveDirection [(0,1),(1,2),(2,3),(3,4)] 100 2 3 = 1 ∧
    (streakCore (recentPrices [(0,1),(1,2),(2,3),(3,4)] 100 3)).1
      * ((streakCore (recentPrices [(0,1),(1,2),(2,3),(3,4)] 100 3)).2 : ℤ) = 3 ∧
    2 ≤ (streakCore (recentPrices [(0,1),(1,2),(2,3),(3,4)] 100 3)).2 ∧
    (1 : ℤ) ≠ 3 := by
  refine ⟨?_, ?_, ?_, by decide⟩ <;>
    norm_num [consecutiveDirection, recentPrices, walkDir, streakCore, contLen]

/-- C8 (amended) -- `_get_consecutive_direction` walks the in-window
samples newest-to-oldest, skipping flat diffs without breaking the
streak and stopping at a sign change, but it returns only the
**direction** of the streak (`+1` up, `-1` down), not the signed
count: it yields the streak direction exactly when the window and its
in-range suffix each hold more than `threshold_ticks` samples and the
streak length reaches `max 1 threshold_ticks`, and 0 otherwise. -/
theorem consecutive_direction_returns_sign (window : List (ℚ × ℚ)) (ws : ℚ) (thr : ℕ)
    (now : ℚ) :
    consecutiveDirection window ws thr now =
      if window.length < thr + 1 then 0
      else if (recentPrices window ws now).length < thr + 1 then 0
      else if 1 ≤ (streakCore (recentPrices window ws now)).2
          ∧ thr ≤ (streakCore (recentPrices window ws now)).2 then
        (streakCore (recentPrices window ws now)).1
      else 0 := by
  simp only [consecutiveDirection]
  split_ifs with h1 h2 h3
  · rfl
  · rfl
  · exact (walkDir_zero thr (recentPrices window ws now)).trans (if_pos h3)
  · exact (walkDir_zero thr (recentPrices window ws now)).trans (if_neg h3)

end StandX
